import Mathlib

/-!
Shallow embedding of the Playlist Management service
(`src/app/main.py` and `src/data_processor.py`).

The SQLite database is modelled as an explicit state value: the `songs`
table is a list of rows in insertion (rowid) order, and the
`song_ratings` table is an append-only list of rating events.  SQLite
REAL arithmetic (AVG, the stored `star_rating`) is modelled with `ℚ`;
Python `round(x, 2)` is modelled by round-half-to-even at two decimal
places.  HTTP 404 responses are modelled with `Except`.
-/

namespace Playlist

/-- A value occurring in the columnar JSON input of
`data_processor.py` (strings, numbers, or JSON null / absent). -/
inductive JVal where
  | str (s : String)
  | num (q : ℚ)
  | null
deriving DecidableEq

/-- A row of the `songs` table.  `id`, `title` and `star_rating` are the
columns the service logic reads or writes; the remaining audio-feature
columns (danceability, energy, ..., class) are passed through unchanged
by every operation and are bundled as the opaque list `features`. -/
structure SongRow where
  id : String
  title : String
  star_rating : Option ℚ
  features : List JVal
deriving DecidableEq

/-- A row of the `song_ratings` table (one rating event). -/
structure RatingEvent where
  song_id : String
  rating : ℤ
deriving DecidableEq

/-- The database state: `songs` and `song_ratings` tables, rows kept in
insertion (rowid) order. -/
structure DB where
  songs : List SongRow
  song_ratings : List RatingEvent
deriving DecidableEq

/-- The pagination envelope returned by `GET /songs`
(`SongResponse` in `main.py`). -/
structure SongResponse where
  songs : List SongRow
  total : ℕ
  page : ℕ
  per_page : ℕ
  total_pages : ℕ
deriving DecidableEq

/-- The response of the rating endpoints (`RatingResponse` in `main.py`). -/
structure RatingResponse where
  song_id : String
  average_rating : ℚ
  total_ratings : ℕ
deriving DecidableEq

/-- The only typed error the modelled handlers raise themselves:
HTTP 404, `Song not found`. -/
inductive ApiError where
  | notFound
deriving DecidableEq

/-- `SELECT rating FROM song_ratings WHERE song_id = ?`. -/
def ratingsFor (db : DB) (sid : String) : List ℤ :=
  (db.song_ratings.filter (fun e => e.song_id == sid)).map (fun e => e.rating)

/-- SQLite `AVG(rating)` over a set of rows: `NULL` on the empty set,
otherwise the mean as a REAL (modelled in `ℚ`). -/
def avgOpt (l : List ℤ) : Option ℚ :=
  if l.isEmpty then none else some ((l.map (fun v => (v : ℚ))).sum / (l.length : ℚ))

/-- Python `result[avg] or 0.0`: `None` is normalised to `0.0`
(`0.0 or 0.0` is also `0.0`, so `getD 0` is exact). -/
def orZero (o : Option ℚ) : ℚ := o.getD 0

/-- Round-half-to-even to the nearest integer, the tie-breaking rule of
Python `round`. -/
def roundHalfEven (x : ℚ) : ℤ :=
  if x - ⌊x⌋ < 1 / 2 then ⌊x⌋
  else if x - ⌊x⌋ > 1 / 2 then ⌊x⌋ + 1
  else if 2 ∣ ⌊x⌋ then ⌊x⌋ else ⌊x⌋ + 1

/-- Python `round(x, 2)`. -/
def round2 (x : ℚ) : ℚ := (roundHalfEven (x * 100) : ℚ) / 100

/-- `SELECT id FROM songs WHERE id = ?` followed by `fetchone()`:
does a row with this id exist. -/
def songExists (db : DB) (sid : String) : Bool :=
  db.songs.any (fun s => s.id == sid)

/-- The comparison used by `ORDER BY title`: SQLite BINARY collation is
memcmp on the UTF-8 encodings, which coincides with lexicographic order
on the code-point sequences of the titles. -/
def titleLE (a b : SongRow) : Prop := a.title.data ≤ b.title.data

instance : DecidableRel titleLE :=
  fun a b => inferInstanceAs (Decidable (a.title.data ≤ b.title.data))

instance : IsTotal SongRow titleLE :=
  ⟨fun a b => total_of (· ≤ ·) a.title.data b.title.data⟩

instance : IsTrans SongRow titleLE := ⟨fun _ _ _ h h₂ => le_trans h h₂⟩

/-- `ORDER BY title`: the rows sorted by title.  The SQL query gives no
tie-break for equal titles; the model resolves ties by keeping the scan
(insertion) order, which a stable sort preserves. -/
def orderByTitle (rows : List SongRow) : List SongRow :=
  rows.insertionSort titleLE

/-- Handler of `GET /songs` (`get_all_songs` in `main.py`), after
FastAPI has validated `page ≥ 1` and `1 ≤ per_page ≤ 100`.
`offset = (page - 1) * per_page`, `total_pages = (total + per_page - 1)
// per_page`, rows from `ORDER BY title LIMIT per_page OFFSET offset`. -/
def get_all_songs (db : DB) (page per_page : ℕ) : SongResponse :=
  let total := db.songs.length
  let offset := (page - 1) * per_page
  let total_pages := (total + per_page - 1) / per_page
  let rows := ((orderByTitle db.songs).drop offset).take per_page
  ⟨rows, total, page, per_page, total_pages⟩

/-- ASCII lowercasing of a character sequence: SQLite `LOWER` folds only
ASCII letters by default, which is exactly what `Char.toLower` does on
the ASCII range. -/
def lowerChars (l : List Char) : List Char := l.map Char.toLower

/-- SQLite `LIKE` matching: `%` matches any character sequence (some
suffix of the text continues the match), `_` matches any single
character, anything else matches itself.  Both sides are already
lowercased by the query, so literal characters compare by equality. -/
def likeMatch : List Char → List Char → Bool
  | [], ts => ts.isEmpty
  | '%' :: ps, ts => ts.tails.any (fun suffix => likeMatch ps suffix)
  | '_' :: _, [] => false
  | '_' :: ps, _ :: ts => likeMatch ps ts
  | _ :: _, [] => false
  | p :: ps, c :: ts => (p == c) && likeMatch ps ts

/-- The pattern `LOWER('%' + title + '%')` built by
`search_songs_by_title`: the query is embedded unescaped between two
percent signs and the whole pattern is lowercased. -/
def likePattern (q : String) : List Char :=
  lowerChars ('%' :: (q.data ++ ['%']))

/-- Handler of `GET /songs/search` (`search_songs_by_title` in
`main.py`): `WHERE LOWER(title) LIKE LOWER('%' + q + '%') ORDER BY
title`. -/
def search_songs_by_title (db : DB) (q : String) : List SongRow :=
  orderByTitle
    (db.songs.filter (fun s => likeMatch (likePattern q) (lowerChars s.title.data)))

/-- Handler of `POST /songs/{song_id}/rate` (`rate_song` in `main.py`),
after FastAPI/pydantic has validated `1 ≤ rating ≤ 5`.  Checks the song
exists (404 otherwise, before any write), inserts the rating event,
recomputes `AVG(rating), COUNT(*)` over the full log, writes the
full-precision average into `songs.star_rating`, and returns the average
rounded to 2 decimals with the count. -/
def rate_song (db : DB) (sid : String) (rating : ℤ) :
    Except ApiError (DB × RatingResponse) :=
  if songExists db sid then
    let db1 : DB := { db with song_ratings := db.song_ratings ++ [⟨sid, rating⟩] }
    let vals := ratingsFor db1 sid
    let average_rating := orZero (avgOpt vals)
    let total_ratings := vals.length
    let db2 : DB :=
      { db1 with
        songs := db1.songs.map (fun s =>
          if s.id == sid then { s with star_rating := some average_rating } else s) }
    .ok (db2, ⟨sid, round2 average_rating, total_ratings⟩)
  else .error .notFound

/-- Handler of `GET /songs/{song_id}/rating` (`get_song_rating` in
`main.py`): 404 if the song does not exist, otherwise `AVG` and `COUNT`
over the rating log, the `NULL` average normalised to `0.0` and rounded
to 2 decimals. -/
def get_song_rating (db : DB) (sid : String) : Except ApiError RatingResponse :=
  if songExists db sid then
    let vals := ratingsFor db sid
    .ok ⟨sid, round2 (orZero (avgOpt vals)), vals.length⟩
  else .error .notFound

/-- One rating submission: the path parameter and the body value. -/
structure Submission where
  sid : String
  value : ℤ
deriving DecidableEq

/-- The values filtered out of `subs` that target `sid`: the bodies of
the submissions `v_1 .. v_N` sent to one song, in order. -/
def subsFor (subs : List Submission) (sid : String) : List ℤ :=
  (subs.filter (fun sub => sub.sid == sid)).map (fun sub => sub.value)

/-- The arithmetic mean of a list of integer ratings, as `ℚ`. -/
def meanQ (l : List ℤ) : ℚ := (l.map (fun v => (v : ℚ))).sum / (l.length : ℚ)

/-- The state after one `POST /songs/{sid}/rate` request.  A request
that fails with 404 leaves the state unchanged (the handler raises
before any write). -/
def applySubmission (d : DB) (sub : Submission) : DB :=
  match rate_song d sub.sid sub.value with
  | .ok (d2, _) => d2
  | .error _ => d

/-- Run a sequence of `POST /songs/{sid}/rate` requests. -/
def processSubmissions (db : DB) (subs : List Submission) : DB :=
  subs.foldl applySubmission db

/-- The state a successful `rate_song d sid v` commits: the event is
appended to the log and the cache of the rated song is set to the
full-precision mean of its events (proved equal to the handler output
in `rate_song_ok` below). -/
def dbAfterRating (d : DB) (sid : String) (v : ℤ) : DB :=
  ⟨d.songs.map (fun s =>
      if s.id == sid then
        { s with star_rating := some (meanQ (ratingsFor d sid ++ [v])) }
      else s),
    d.song_ratings ++ [⟨sid, v⟩]⟩

/-- Does `pat` occur in `text` as a literal contiguous substring. -/
def litOccurs (pat text : List Char) : Bool :=
  (List.range (text.length + 1)).any (fun i => ((text.drop i).take pat.length) == pat)

/-! ## Embedding of `data_processor.py` -/

/-- A Python dict used as a record: an association list with the keys
unique.  `dictSet` mirrors `record[k] = v` (overwrite in place or append),
`dictGet` mirrors `record.get(k)` with `None` as default. -/
def dictSet (d : List (String × JVal)) (k : String) (v : JVal) :
    List (String × JVal) :=
  if d.any (fun p => p.1 == k) then
    d.map (fun p => if p.1 == k then (k, v) else p)
  else d ++ [(k, v)]

/-- `record.get(k)`, with JSON null and a missing key both read as `None`. -/
def dictGet (d : List (String × JVal)) (k : String) : JVal :=
  match d.find? (fun p => p.1 == k) with
  | some p => p.2
  | none => .null

/-- The columnar JSON input: attribute name vs map from stringified row
index to value, in key order. -/
def ColumnarData : Type := List (String × List (String × JVal))

/-- `len(list(data.values())[0])`: the number of records, read off the
first attribute.  (Python raises on an empty dict; the embedding is only
used on nonempty data.) -/
def num_records (data : ColumnarData) : ℕ :=
  match data with
  | [] => 0
  | (_, vs) :: _ => vs.length

/-- One iteration of the normalization loop of `normalize_data`: for row
`i`, every attribute is looked up at key `str(i)` (missing gives `None`),
and then `record[star_rating] = None` is set. -/
def normalize_record (data : ColumnarData) (i : ℕ) : List (String × JVal) :=
  dictSet
    (data.foldl
      (fun r nv =>
        dictSet r nv.1
          (match nv.2.find? (fun p => p.1 == toString i) with
           | some p => p.2
           | none => .null))
      [])
    "star_rating" .null

/-- `normalize_data` of `data_processor.py`: one record per row index. -/
def normalize_data (data : ColumnarData) : List (List (String × JVal)) :=
  (List.range (num_records data)).map (normalize_record data)

/-- Reading a TEXT column (`id`, `title`) out of a record value.  The
claims only concern records whose ids and titles are strings. -/
def jToString : JVal → String
  | .str s => s
  | _ => ""

/-- Reading the REAL `star_rating` column out of a record value:
non-numbers are stored as SQL `NULL`. -/
def jToRatOpt : JVal → Option ℚ
  | .num q => some q
  | _ => none

/-- The feature columns named in the `INSERT OR REPLACE` statement of
`insert_songs`, other than `id`, `title` and `star_rating`. -/
def featureKeys : List String :=
  ["danceability", "energy", "key", "loudness", "mode", "acousticness",
   "instrumentalness", "liveness", "valence", "tempo", "duration_ms",
   "time_signature", "num_bars", "num_sections", "num_segments", "class"]

/-- The row built from a record by the `INSERT OR REPLACE` statement:
each column is `song.get(column)`. -/
def rowOfRecord (r : List (String × JVal)) : SongRow :=
  { id := jToString (dictGet r "id")
    title := jToString (dictGet r "title")
    star_rating := jToRatOpt (dictGet r "star_rating")
    features := featureKeys.map (dictGet r) }

/-- SQLite `INSERT OR REPLACE` on the `songs` table: the row that
conflicts on the primary key `id` is deleted and the new row inserted.
The `song_ratings` table is not touched. -/
def insertOrReplaceSong (db : DB) (row : SongRow) : DB :=
  { db with songs := (db.songs.filter (fun s => s.id != row.id)) ++ [row] }

/-- `insert_songs` of `data_processor.py`: the records are inserted in
order, each with `INSERT OR REPLACE`. -/
def insert_songs (db : DB) (recs : List (List (String × JVal))) : DB :=
  recs.foldl (fun d r => insertOrReplaceSong d (rowOfRecord r)) db

/-! ## Concrete states used by counterexamples and witnesses -/

/-- A database with no songs and no ratings. -/
def emptyDB : DB := ⟨[], []⟩

/-- One song `s1`, no ratings yet. -/
def oneSongDB : DB := ⟨[⟨"s1", "T", none, []⟩], []⟩

/-- Two songs with the same title whose store order disagrees with
ascending id order. -/
def tieDB : DB := ⟨[⟨"b", "T", none, []⟩, ⟨"a", "T", none, []⟩], []⟩

/-- One song whose title matches a wildcard query only thanks to the
unescaped `%`. -/
def wildcardDB : DB := ⟨[⟨"s1", "Midnight Sun", none, []⟩], []⟩

/-- Songs for the search witnesses. -/
def searchDB : DB := ⟨[⟨"s2", "Calm Night", none, []⟩, ⟨"s1", "3AM Drive", none, []⟩], []⟩

/-- A song that already has a rating event and a cached aggregate, about
to be re-ingested. -/
def reingestDB : DB := ⟨[⟨"a", "Old Title", some 4, []⟩], [⟨"a", 4⟩]⟩

/-- The columnar input of the re-ingestion witness. -/
def reingestData : ColumnarData :=
  [("id", [("0", .str "a")]), ("title", [("0", .str "Song A")])]

/-- The record `normalize_data reingestData` produces. -/
def reingestRec : List (String × JVal) :=
  [("id", .str "a"), ("title", .str "Song A"), ("star_rating", .null)]

/-- An interleaved submission sequence: two ratings for song `s1` with a
rating for an unknown song in between. -/
def w1subs : List Submission := [⟨"s1", 4⟩, ⟨"zz", 3⟩, ⟨"s1", 5⟩]

/-- A state in which song `s1` has a full-precision cached average and
two logged ratings of value 1. -/
def ratedDB : DB := ⟨[⟨"s1", "T", some 1, []⟩], [⟨"s1", 1⟩, ⟨"s1", 1⟩]⟩

/-- The state after one more rating of 2 on `ratedDB`: the cache holds
the full-precision mean `4/3`. -/
def ratedDB2 : DB :=
  ⟨[⟨"s1", "T", some (4 / 3), []⟩], [⟨"s1", 1⟩, ⟨"s1", 1⟩, ⟨"s1", 2⟩]⟩

/-! ## Helper lemmas -/

theorem ratingsFor_append_event (db : DB) (sid : String) (v : ℤ) :
    ratingsFor { db with song_ratings := db.song_ratings ++ [⟨sid, v⟩] } sid =
      ratingsFor db sid ++ [v] := by
  simp [ratingsFor, List.filter_append]

theorem ratingsFor_append_other (db : DB) (sid t : String) (v : ℤ)
    (h : (t == sid) = false) :
    ratingsFor { db with song_ratings := db.song_ratings ++ [⟨t, v⟩] } sid =
      ratingsFor db sid := by
  simp [ratingsFor, List.filter_append, h]

theorem avgOpt_of_ne_nil (l : List ℤ) (h : l ≠ []) : avgOpt l = some (meanQ l) := by
  simp [avgOpt, meanQ, h]

theorem ratingsFor_dbAfterRating_same (d : DB) (sid : String) (v : ℤ) :
    ratingsFor (dbAfterRating d sid v) sid = ratingsFor d sid ++ [v] := by
  simp [dbAfterRating, ratingsFor, List.filter_append]

theorem ratingsFor_dbAfterRating_other (d : DB) (sid t : String) (v : ℤ)
    (h : (t == sid) = false) :
    ratingsFor (dbAfterRating d t v) sid = ratingsFor d sid := by
  simp [dbAfterRating, ratingsFor, List.filter_append, h]

theorem rate_song_ok (db : DB) (sid : String) (v : ℤ)
    (h : songExists db sid = true) :
    rate_song db sid v = .ok
      (dbAfterRating db sid v,
       ⟨sid, round2 (meanQ (ratingsFor db sid ++ [v])),
        (ratingsFor db sid).length + 1⟩) := by
  rw [rate_song, if_pos h]
  have hr := ratingsFor_append_event db sid v
  have hm : orZero (avgOpt (ratingsFor db sid ++ [v])) =
      meanQ (ratingsFor db sid ++ [v]) := by
    rw [avgOpt_of_ne_nil _ (by simp)]; rfl
  simp only [hr, hm, List.length_append, List.length_singleton]
  rfl

theorem rate_song_notFound (db : DB) (sid : String) (v : ℤ)
    (h : songExists db sid = false) :
    rate_song db sid v = .error .notFound := by
  rw [rate_song, if_neg (by simp [h])]

theorem applySubmission_eq (d : DB) (sub : Submission) :
    applySubmission d sub =
      if songExists d sub.sid then dbAfterRating d sub.sid sub.value else d := by
  unfold applySubmission
  by_cases h : songExists d sub.sid
  · rw [rate_song_ok d sub.sid sub.value h, if_pos h]
  · rw [rate_song_notFound d sub.sid sub.value (by simpa using h), if_neg h]

theorem songExists_map_update (songs : List SongRow) (t sid : String) (m : ℚ) :
    ((songs.map (fun s =>
        if s.id == t then { s with star_rating := some m } else s)).any
      (fun s => s.id == sid)) = songs.any (fun s => s.id == sid) := by
  induction songs with
  | nil => rfl
  | cons a l ih =>
    by_cases h : (a.id == t) = true
    · simp only [List.map_cons, List.any_cons, if_pos h, ih]
    · simp only [List.map_cons, List.any_cons, if_neg h, ih]

theorem songExists_dbAfterRating (d : DB) (t : String) (v : ℤ) (sid : String) :
    songExists (dbAfterRating d t v) sid = songExists d sid :=
  songExists_map_update d.songs t sid (meanQ (ratingsFor d t ++ [v]))

theorem applySubmission_songExists (d : DB) (sub : Submission) (sid : String) :
    songExists (applySubmission d sub) sid = songExists d sid := by
  rw [applySubmission_eq]
  split
  · exact songExists_dbAfterRating d sub.sid sub.value sid
  · rfl

theorem processSubmissions_cons (db : DB) (sub : Submission)
    (subs : List Submission) :
    processSubmissions db (sub :: subs) =
      processSubmissions (applySubmission db sub) subs := rfl

theorem processSubmissions_songExists (subs : List Submission) (db : DB)
    (sid : String) :
    songExists (processSubmissions db subs) sid = songExists db sid := by
  induction subs generalizing db with
  | nil => rfl
  | cons sub subs ih =>
    rw [processSubmissions_cons, ih, applySubmission_songExists]

theorem processSubmissions_ratingsFor (subs : List Submission) (db : DB)
    (sid : String) (h : songExists db sid = true) :
    ratingsFor (processSubmissions db subs) sid =
      ratingsFor db sid ++ subsFor subs sid := by
  induction subs generalizing db with
  | nil => simp [processSubmissions, subsFor]
  | cons sub subs ih =>
    rw [processSubmissions_cons,
      ih _ ((applySubmission_songExists db sub sid).trans h)]
    rw [applySubmission_eq]
    by_cases hsub : (sub.sid == sid) = true
    · have hs : sub.sid = sid := eq_of_beq hsub
      rw [if_pos (by rw [hs]; exact h)]
      rw [hs, ratingsFor_dbAfterRating_same]
      simp [subsFor, List.filter_cons, hsub, hs]
    · by_cases hex : songExists db sub.sid = true
      · rw [if_pos hex, ratingsFor_dbAfterRating_other db sid sub.sid sub.value
          (by simpa using hsub)]
        simp [subsFor, List.filter_cons, hsub]
      · rw [if_neg hex]
        simp [subsFor, List.filter_cons, hsub]

theorem get_song_rating_ok (db : DB) (sid : String)
    (h : songExists db sid = true) :
    get_song_rating db sid =
      .ok ⟨sid, round2 (orZero (avgOpt (ratingsFor db sid))),
           (ratingsFor db sid).length⟩ := by
  rw [get_song_rating, if_pos h]

theorem get_song_rating_notFound (db : DB) (sid : String)
    (h : songExists db sid = false) :
    get_song_rating db sid = .error .notFound := by
  rw [get_song_rating, if_neg (by simp [h])]

theorem round2_zero : round2 0 = 0 := by
  norm_num [round2, roundHalfEven]

theorem ceil_formula (t p : ℕ) (hp : 0 < p) :
    (t + p - 1) / p = ⌈(t : ℚ) / (p : ℚ)⌉₊ := by
  rcases Nat.eq_zero_or_pos t with ht | ht
  · subst ht
    rw [Nat.div_eq_of_lt (by omega)]
    simp
  · have hn0 : (t + p - 1) / p ≠ 0 := by
      have hle : p ≤ t + p - 1 := by omega
      have := (Nat.one_le_div_iff hp).mpr hle
      omega
    set n := (t + p - 1) / p with hn
    have hdm : n * p + (t + p - 1) % p = t + p - 1 := by
      rw [Nat.mul_comm]; exact Nat.div_add_mod (t + p - 1) p
    have hmod := Nat.mod_lt (t + p - 1) hp
    have hg1 : (n - 1) * p < t := by
      rw [Nat.sub_one_mul]; omega
    have hg2 : t ≤ n * p := by omega
    have hp' : (0 : ℚ) < (p : ℚ) := by exact_mod_cast hp
    symm
    rw [Nat.ceil_eq_iff hn0]
    refine ⟨?_, ?_⟩
    · rw [lt_div_iff₀ hp']
      exact_mod_cast hg1
    · rw [div_le_iff₀ hp']
      exact_mod_cast hg2

theorem dict_find_map_set (d : List (String × JVal)) (k : String) (v : JVal) :
    ((d.map (fun p => if p.1 == k then (k, v) else p)).find?
        (fun p => p.1 == k)) =
      if d.any (fun p => p.1 == k) then some (k, v) else none := by
  induction d with
  | nil => rfl
  | cons p d ih =>
    by_cases h : (p.1 == k) = true
    · rw [List.map_cons, if_pos h, List.find?_cons_of_pos _ (by simp)]
      simp [List.any_cons, h]
    · rw [List.map_cons, if_neg h, List.find?_cons_of_neg _ (by simpa using h), ih]
      have hb : (p.1 == k) = false := by simpa using h
      rw [List.any_cons, hb, Bool.false_or]

theorem dictGet_dictSet (d : List (String × JVal)) (k : String) (v : JVal) :
    dictGet (dictSet d k v) k = v := by
  unfold dictSet dictGet
  by_cases h : d.any (fun p => p.1 == k)
  · rw [if_pos h, dict_find_map_set, if_pos h]
  · rw [if_neg h, List.find?_append]
    have hnone : d.find? (fun p => p.1 == k) = none :=
      List.find?_eq_none.mpr (by
        intro a ha hak
        exact h (List.any_eq_true.mpr ⟨a, ha, hak⟩))
    rw [hnone]
    simp

theorem normalize_data_star_null (data : ColumnarData)
    (r : List (String × JVal)) (h : r ∈ normalize_data data) :
    dictGet r "star_rating" = .null := by
  rcases List.mem_map.mp h with ⟨i, _, rfl⟩
  exact dictGet_dictSet _ "star_rating" .null

theorem insert_one (db : DB) (r : List (String × JVal)) :
    insert_songs db [r] = insertOrReplaceSong db (rowOfRecord r) := rfl

/-! ## Claim theorems -/

/-- C1: for an existing song with no prior ratings, after a sequence of
rating submissions (arbitrarily interleaved with submissions for other
songs, all values in [1,5]) of which `v_1 .. v_N` target this song,
`get_rating` returns `count = N` and
`average_rating = round(mean(v_1 .. v_N), 2)`.  The result depends only
on the subsequence `subsFor subs sid`, so it is independent of the
interleaving with other songs. -/
theorem C1_rating_aggregation (db : DB) (subs : List Submission) (sid : String)
    (hex : songExists db sid = true)
    (hprior : ratingsFor db sid = [])
    (hvals : ∀ sub ∈ subs, 1 ≤ sub.value ∧ sub.value ≤ 5)
    (hN : subsFor subs sid ≠ []) :
    get_song_rating (processSubmissions db subs) sid =
      .ok ⟨sid, round2 (meanQ (subsFor subs sid)), (subsFor subs sid).length⟩ := by
  have hex2 : songExists (processSubmissions db subs) sid = true := by
    rw [processSubmissions_songExists]; exact hex
  rw [get_song_rating_ok _ _ hex2, processSubmissions_ratingsFor subs db sid hex,
    hprior, List.nil_append, avgOpt_of_ne_nil _ hN]
  rfl

/-- Witness for C1: rate `s1` with 4 and 5, with an unrelated (failing)
submission interleaved. -/
theorem C1_rating_aggregation_witness :
    get_song_rating (processSubmissions oneSongDB w1subs) "s1" =
      .ok ⟨"s1", round2 (meanQ (subsFor w1subs "s1")),
           (subsFor w1subs "s1").length⟩ :=
  C1_rating_aggregation oneSongDB w1subs "s1" (by decide) (by decide)
    (by decide) (by decide)

/-- C5: for a `song_id` not present in the Song Store, both
`submit_rating` and `get_rating` fail with 404, and the failed
submission performs no mutation at all. -/
theorem C5_unknown_song_404 (db : DB) (sid : String) (v : ℤ)
    (h : songExists db sid = false) :
    rate_song db sid v = .error .notFound ∧
    get_song_rating db sid = .error .notFound ∧
    applySubmission db ⟨sid, v⟩ = db := by
  refine ⟨rate_song_notFound db sid v h, get_song_rating_notFound db sid h, ?_⟩
  unfold applySubmission
  rw [rate_song_notFound db sid v h]

/-- Witness for C5 on an empty store. -/
theorem C5_unknown_song_404_witness :
    rate_song emptyDB "missing" 3 = .error .notFound ∧
    get_song_rating emptyDB "missing" = .error .notFound ∧
    applySubmission emptyDB ⟨"missing", 3⟩ = emptyDB :=
  C5_unknown_song_404 emptyDB "missing" 3 (by decide)

/-- C6: `list_songs` returns the slice of the ordered song list starting
at `offset = (page - 1) * per_page` with at most `per_page` items, and
returns an empty item list (success, not an error) when the offset is
at or past the total. -/
theorem C6_pagination_slice (db : DB) (page per_page : ℕ)
    (h1 : 1 ≤ page) (h2 : 1 ≤ per_page) (h3 : per_page ≤ 100) :
    (get_all_songs db page per_page).songs =
      ((orderByTitle db.songs).drop ((page - 1) * per_page)).take per_page ∧
    (get_all_songs db page per_page).songs.length ≤ per_page ∧
    (db.songs.length ≤ (page - 1) * per_page →
      (get_all_songs db page per_page).songs = []) := by
  refine ⟨rfl, List.length_take_le _ _, ?_⟩
  intro hoff
  show (((orderByTitle db.songs).drop ((page - 1) * per_page)).take per_page) = []
  have hlen : (orderByTitle db.songs).length = db.songs.length :=
    (List.perm_insertionSort titleLE db.songs).length_eq
  rw [List.drop_eq_nil_of_le (by rw [hlen]; exact hoff)]
  exact List.take_nil

/-- Witness for C6: page 2 of size 1 over a two-song store. -/
theorem C6_pagination_slice_witness :
    (get_all_songs searchDB 2 1).songs =
      ((orderByTitle searchDB.songs).drop ((2 - 1) * 1)).take 1 ∧
    (get_all_songs searchDB 2 1).songs.length ≤ 1 ∧
    (searchDB.songs.length ≤ (2 - 1) * 1 →
      (get_all_songs searchDB 2 1).songs = []) :=
  C6_pagination_slice searchDB 2 1 (by decide) (by decide) (by decide)

/-- C7: for an existing song with no rating events, `get_rating`
succeeds and returns `average = 0.0`, `count = 0`. -/
theorem C7_no_ratings_zero (db : DB) (sid : String)
    (hex : songExists db sid = true) (h0 : ratingsFor db sid = []) :
    get_song_rating db sid = .ok ⟨sid, 0, 0⟩ := by
  rw [get_song_rating_ok db sid hex, h0]
  simp [avgOpt, orZero, round2_zero]

/-- Witness for C7 on a store with one unrated song. -/
theorem C7_no_ratings_zero_witness :
    get_song_rating oneSongDB "s1" = .ok ⟨"s1", 0, 0⟩ :=
  C7_no_ratings_zero oneSongDB "s1" (by decide) (by decide)

theorem rate_song_ratedDB :
    rate_song ratedDB "s1" 2 = .ok (ratedDB2, ⟨"s1", 133 / 100, 3⟩) := by
  rw [rate_song, if_pos (by decide)]
  have h1 : ratingsFor
      { ratedDB with song_ratings := ratedDB.song_ratings ++ [⟨"s1", 2⟩] }
      "s1" = [1, 1, 2] := by decide
  norm_num [ratedDB, ratedDB2, h1, avgOpt, orZero, round2, roundHalfEven,
    ratingsFor]

/-- C2 counterexample: rating a song whose log holds `[1, 1]` with a 2
stores the full-precision mean `4/3` in `star_rating` but returns the
rounded display value `1.33`; the stored and returned values differ. -/
theorem C2_counterexample :
    rate_song ratedDB "s1" 2 = .ok (ratedDB2, ⟨"s1", 133 / 100, 3⟩) ∧
    ratedDB2.songs.map (fun s => s.star_rating) = [some (4 / 3)] ∧
    (4 / 3 : ℚ) ≠ 133 / 100 := by
  refine ⟨rate_song_ratedDB, rfl, by norm_num⟩

/-- C2 amended: for every successful `submit_rating` call, the value
written into `star_rating` is the full-precision mean of all logged
rating values for that song, while the returned display value is that
mean rounded to 2 decimal places — the stored value is not rounded, so
the two agree only when the mean carries at most 2 decimals. -/
theorem C2_full_precision_cache (db : DB) (sid : String) (v : ℤ)
    (db2 : DB) (resp : RatingResponse)
    (h : rate_song db sid v = .ok (db2, resp)) :
    avgOpt (ratingsFor db2 sid) = some (meanQ (ratingsFor db sid ++ [v])) ∧
    (∀ s ∈ db2.songs, s.id = sid →
      s.star_rating = some (meanQ (ratingsFor db sid ++ [v]))) ∧
    resp.average_rating = round2 (meanQ (ratingsFor db sid ++ [v])) := by
  by_cases hex : songExists db sid = true
  · rw [rate_song_ok db sid v hex] at h
    injection h with hpair
    have hdb : dbAfterRating db sid v = db2 := congrArg Prod.fst hpair
    have hresp : (⟨sid, round2 (meanQ (ratingsFor db sid ++ [v])),
        (ratingsFor db sid).length + 1⟩ : RatingResponse) = resp :=
      congrArg Prod.snd hpair
    subst hdb
    subst hresp
    refine ⟨?_, ?_, rfl⟩
    · rw [ratingsFor_dbAfterRating_same, avgOpt_of_ne_nil _ (by simp)]
    · intro s hs hsid
      rcases List.mem_map.mp hs with ⟨a, _, rfl⟩
      by_cases hat : (a.id == sid) = true
      · rw [if_pos hat]
      · rw [if_neg hat] at hsid ⊢
        exact absurd (beq_iff_eq.mpr hsid) hat
  · rw [rate_song_notFound db sid v (by simpa using hex)] at h
    cases h

/-- Witness for the amended C2, at the concrete call of the
counterexample. -/
theorem C2_full_precision_cache_witness :
    avgOpt (ratingsFor ratedDB2 "s1") =
      some (meanQ (ratingsFor ratedDB "s1" ++ [2])) ∧
    (∀ s ∈ ratedDB2.songs, s.id = "s1" →
      s.star_rating = some (meanQ (ratingsFor ratedDB "s1" ++ [2]))) ∧
    (⟨"s1", 133 / 100, 3⟩ : RatingResponse).average_rating =
      round2 (meanQ (ratingsFor ratedDB "s1" ++ [2])) :=
  C2_full_precision_cache ratedDB "s1" 2 ratedDB2 ⟨"s1", 133 / 100, 3⟩
    rate_song_ratedDB

/-- C3 counterexample: on an empty store, `list_songs(1, 10)` returns
`total_pages = 0`, not the claimed `total_pages = 1`. -/
theorem C3_counterexample :
    get_all_songs emptyDB 1 10 = ⟨[], 0, 1, 10, 0⟩ ∧ (0 : ℕ) ≠ 1 := by
  decide

/-- C3 amended: `total_pages = ceil(total / per_page)` with no lower
bound of 1: when `total = 0` the handler returns `total_pages = 0`
(the integer formula `(total + per_page - 1) / per_page`), so the empty
store scenario yields `{items = [], total = 0, total_pages = 0}`. -/
theorem C3_total_pages_ceiling (db : DB) (page per_page : ℕ)
    (h1 : 1 ≤ page) (h2 : 1 ≤ per_page) (h3 : per_page ≤ 100) :
    (get_all_songs db page per_page).total_pages =
      ⌈(db.songs.length : ℚ) / (per_page : ℚ)⌉₊ ∧
    (db.songs.length = 0 →
      (get_all_songs db page per_page).total_pages = 0) := by
  constructor
  · show (db.songs.length + per_page - 1) / per_page = _
    exact ceil_formula db.songs.length per_page h2
  · intro h0
    show (db.songs.length + per_page - 1) / per_page = 0
    rw [h0]
    exact Nat.div_eq_of_lt (by omega)

/-- Witness for the amended C3 on the empty store. -/
theorem C3_total_pages_ceiling_witness :
    (get_all_songs emptyDB 1 10).total_pages =
      ⌈(emptyDB.songs.length : ℚ) / (10 : ℚ)⌉₊ ∧
    (emptyDB.songs.length = 0 → (get_all_songs emptyDB 1 10).total_pages = 0) :=
  C3_total_pages_ceiling emptyDB 1 10 (by decide) (by decide) (by decide)

/-- C4 counterexample: two songs share the title `T` but are stored in
the order `b`, `a`; `list_songs` returns them in store order `[b, a]`,
not in the claimed id-ascending tie order `[a, b]`. -/
theorem C4_counterexample :
    tieDB.songs.map (fun s => s.title) = ["T", "T"] ∧
    (get_all_songs tieDB 1 10).songs.map (fun s => s.id) = ["b", "a"] ∧
    ["b", "a"] ≠ ["a", "b"] := by
  decide

/-- C4 amended: both `list_songs` and `search_by_title` return items
sorted by title ascending, but the `ORDER BY title` query specifies no
tie-break, so equal titles keep store order instead of the claimed
id-ascending order. -/
theorem C4_sorted_by_title (db : DB) (page per_page : ℕ) (q : String) :
    List.Sorted titleLE (get_all_songs db page per_page).songs ∧
    List.Sorted titleLE (search_songs_by_title db q) := by
  constructor
  · have hs : List.Sorted titleLE (orderByTitle db.songs) :=
      List.sorted_insertionSort titleLE db.songs
    exact hs.sublist
      ((List.take_sublist _ _).trans (List.drop_sublist _ _))
  · exact List.sorted_insertionSort titleLE _

/-- C8: `search_by_title` is case-insensitive — two queries equal up to
letter case produce identical result sets — and a query matching no
title returns the empty list with success status. -/
theorem C8_search_case_insensitive (db : DB) (q1 q2 : String)
    (h : lowerChars q1.data = lowerChars q2.data) :
    search_songs_by_title db q1 = search_songs_by_title db q2 ∧
    ((∀ s ∈ db.songs,
        likeMatch (likePattern q1) (lowerChars s.title.data) = false) →
      search_songs_by_title db q1 = []) := by
  have hp : likePattern q1 = likePattern q2 := by
    unfold lowerChars at h
    unfold likePattern lowerChars
    simp only [List.map_cons, List.map_append]
    rw [h]
  constructor
  · unfold search_songs_by_title
    rw [hp]
  · intro hnone
    have hfil : db.songs.filter
        (fun s => likeMatch (likePattern q1) (lowerChars s.title.data)) = [] :=
      List.filter_eq_nil_iff.mpr (fun s hs => by simp [hnone s hs])
    unfold search_songs_by_title
    rw [hfil]
    rfl

/-- Witness for C8: the queries `3am` and `3AM` against a store in which
one title contains `3AM`. -/
theorem C8_search_case_insensitive_witness :
    search_songs_by_title searchDB "3am" = search_songs_by_title searchDB "3AM" ∧
    ((∀ s ∈ searchDB.songs,
        likeMatch (likePattern "3am") (lowerChars s.title.data) = false) →
      search_songs_by_title searchDB "3am" = []) :=
  C8_search_case_insensitive searchDB "3am" "3AM" (by decide)

/-- C9: the query is embedded unescaped in the `LIKE` pattern, so a `%`
in the query acts as a wildcard: searching `Mid%Sun` returns the song
titled `Midnight Sun`, whose title does not contain the query as a
literal substring (neither case-sensitively nor case-insensitively). -/
theorem C9_unescaped_like_wildcards :
    search_songs_by_title wildcardDB "Mid%Sun" =
      [⟨"s1", "Midnight Sun", none, []⟩] ∧
    litOccurs "Mid%Sun".data "Midnight Sun".data = false ∧
    litOccurs (lowerChars "Mid%Sun".data) (lowerChars "Midnight Sun".data) =
      false := by
  decide

/-- C10: re-ingesting a record whose id already exists replaces the
whole stored row via `INSERT OR REPLACE`, resetting `star_rating` to the
ingested `None` (every normalized record carries `star_rating = None`),
while the rating log is untouched — so the cached aggregate no longer
equals the mean of the logged ratings. -/
theorem C10_reingest_resets_cache (db : DB) (data : ColumnarData)
    (r : List (String × JVal)) (sid : String)
    (hr : r ∈ normalize_data data)
    (hid : (rowOfRecord r).id = sid)
    (hne : ratingsFor db sid ≠ []) :
    insert_songs db [r] =
      ⟨db.songs.filter (fun s => s.id != sid) ++ [rowOfRecord r],
       db.song_ratings⟩ ∧
    (∀ s ∈ (insert_songs db [r]).songs, s.id = sid → s.star_rating = none) ∧
    avgOpt (ratingsFor (insert_songs db [r]) sid) =
      some (meanQ (ratingsFor db sid)) ∧
    (∀ s ∈ (insert_songs db [r]).songs, s.id = sid →
      s.star_rating ≠ some (meanQ (ratingsFor db sid))) := by
  have hstar : (rowOfRecord r).star_rating = none := by
    unfold rowOfRecord
    rw [normalize_data_star_null data r hr]
    rfl
  have hins : insert_songs db [r] =
      ⟨db.songs.filter (fun s => s.id != sid) ++ [rowOfRecord r],
       db.song_ratings⟩ := by
    rw [insert_one]
    unfold insertOrReplaceSong
    rw [hid]
  have hnone : ∀ s ∈ (insert_songs db [r]).songs, s.id = sid →
      s.star_rating = none := by
    intro s hs hsid
    rw [hins] at hs
    rcases List.mem_append.mp hs with hmem | hmem
    · have := (List.mem_filter.mp hmem).2
      rw [hsid] at this
      simp at this
    · rw [List.mem_singleton.mp hmem]
      exact hstar
  have hrat : ratingsFor (insert_songs db [r]) sid = ratingsFor db sid := by
    rw [hins]
    rfl
  refine ⟨hins, hnone, ?_, ?_⟩
  · rw [hrat, avgOpt_of_ne_nil _ hne]
  · intro s hs hsid
    rw [hnone s hs hsid]
    simp

/-- Witness for C10: a song with one logged rating is re-ingested from
columnar data with the same id. -/
theorem C10_reingest_resets_cache_witness :
    insert_songs reingestDB [reingestRec] =
      ⟨reingestDB.songs.filter (fun s => s.id != "a") ++ [rowOfRecord reingestRec],
       reingestDB.song_ratings⟩ ∧
    (∀ s ∈ (insert_songs reingestDB [reingestRec]).songs, s.id = "a" →
      s.star_rating = none) ∧
    avgOpt (ratingsFor (insert_songs reingestDB [reingestRec]) "a") =
      some (meanQ (ratingsFor reingestDB "a")) ∧
    (∀ s ∈ (insert_songs reingestDB [reingestRec]).songs, s.id = "a" →
      s.star_rating ≠ some (meanQ (ratingsFor reingestDB "a"))) :=
  C10_reingest_resets_cache reingestDB reingestData reingestRec "a"
    (by decide) (by decide) (by decide)

end Playlist
